import Mathlib

/-!
Verification of the parking edge-controller repository (lcd.py, rasbery.py).

The display side (lcd.py, class ParkingSlotDisplay) is embedded as a pure
state-transition function on the pair (total_slots, occupied_slots): each
reconciliation cycle takes the current state and an abstract fetch outcome
(connection error, timeout, HTTP status with an optional parsed payload) and
returns the new state, the boolean the method returns, and the number of
update_display invocations it performed.

The camera/gate side (rasbery.py, class SimpleParkingCamera) is embedded as
event traces: set_gate_angle and operate_gate emit the PWM duty-cycle and
sleep commands the code issues, and send_image_to_server returns its boolean
result together with the list of side effects (file deletion, gate events).
-/

namespace IPS

/-! ### Display controller state (lcd.py) -/

/-- lcd.py line 20: fallback total when Django is unreachable. -/
def DEFAULT_TOTAL_SLOTS : Int := 5

/-- The mutable occupancy fields of ParkingSlotDisplay. -/
structure LcdState where
  total_slots : Int
  occupied_slots : Int
deriving DecidableEq

/-- ParkingSlotDisplay.__init__ lines 41-42: defaults before the first sync. -/
def initState : LcdState := ⟨DEFAULT_TOTAL_SLOTS, 0⟩

/-- Property available_slots, lcd.py lines 52-54. -/
def available_slots (s : LcdState) : Int := s.total_slots - s.occupied_slots

/-- Property is_full, lcd.py lines 56-58. -/
def is_full (s : LcdState) : Bool := available_slots s == 0

/-- What update_display puts on the LCD: either the SPACES LEFT view with the
available/total counts, or the PARKING FULL view. -/
inductive DisplayView where
  | spacesLeft (available total : Int)
  | full
deriving DecidableEq

/-- ParkingSlotDisplay.update_display, lcd.py lines 126-144: branches on
available_slots > 0. -/
def update_display (s : LcdState) : DisplayView :=
  if available_slots s > 0 then .spacesLeft (available_slots s) s.total_slots
  else .full

/-! ### Fetch outcomes for sync_with_django -/

/-- The parsed `data` object of the response; each field is `none` when the
key is absent (a lookup then raises KeyError in the Python code). -/
structure SlotData where
  total_slots : Option Int
  occupied_slots : Option Int
deriving DecidableEq

/-- The parsed JSON body: the truthiness of `success` and the optional
`data` object. -/
structure Payload where
  success : Bool
  data : Option SlotData
deriving DecidableEq

/-- Outcome of `requests.get` in sync_with_django: the exception kinds the
code catches, or a response with a status code and an optional parsed body
(`none` when `response.json()` raises). -/
inductive FetchOutcome where
  | connectionError
  | timeout
  | otherError
  | response (status : Nat) (body : Option Payload)
deriving DecidableEq

/-- A well-formed 200 response carrying both slot counts. -/
def okResponse (t oc : Int) : FetchOutcome :=
  .response 200 (some ⟨true, some ⟨some t, some oc⟩⟩)

/-- What one call to sync_with_django produced: the state afterwards, the
boolean it returned, and how many times it called update_display. -/
structure SyncResult where
  state : LcdState
  ok : Bool
  renders : Nat
deriving DecidableEq

/-- ParkingSlotDisplay.sync_with_django, lcd.py lines 146-178.
Field lookups follow the Python evaluation order: `data['data']`, then
`slot_data['total_slots']` (assigned to self.total_slots), then
`slot_data['occupied_slots']`; a KeyError at any point is caught by the
blanket `except Exception` and the method returns False, keeping whatever
assignments already happened. update_display runs only when a count
changed. -/
def sync_with_django (s : LcdState) (o : FetchOutcome) : SyncResult :=
  match o with
  | .response status body =>
    if status = 200 then
      match body with
      | none => ⟨s, false, 0⟩
      | some p =>
        if p.success then
          match p.data with
          | none => ⟨s, false, 0⟩
          | some sd =>
            match sd.total_slots with
            | none => ⟨s, false, 0⟩
            | some t =>
              match sd.occupied_slots with
              | none => ⟨⟨t, s.occupied_slots⟩, false, 0⟩
              | some oc =>
                ⟨⟨t, oc⟩, true,
                  if s.occupied_slots ≠ oc ∨ s.total_slots ≠ t then 1 else 0⟩
        else ⟨s, false, 0⟩
    else ⟨s, false, 0⟩
  | _ => ⟨s, false, 0⟩

/-- A sequence of sync cycles: final state and total update_display count. -/
def syncRun (s : LcdState) : List FetchOutcome → LcdState × Nat
  | [] => (s, 0)
  | o :: rest =>
    let r := sync_with_django s o
    let p := syncRun r.state rest
    (p.1, r.renders + p.2)

/-! ### The periodic sync loop (lcd.py lines 196-218) -/

/-- Renders issued by one body of the periodic_sync while-loop:
show_sync_message (SYNCING), show_error_message (CONNECTION ERROR), and the
update_display call that restores the normal view after the error. -/
inductive PRender where
  | syncing
  | connError
  | restore
deriving DecidableEq

/-- One iteration of periodic_sync given the boolean sync_with_django
returned: reset the consecutive_failures counter on success, otherwise
increment it and, once it reaches 3, show the error then restore the
display. -/
def periodic_sync_step (c : Nat) (ok : Bool) : Nat × List PRender :=
  if ok then (0, [.syncing])
  else if c + 1 ≥ 3 then (c + 1, [.syncing, .connError, .restore])
  else (c + 1, [.syncing])

/-- Running periodic_sync over a list of sync outcomes, from a given
consecutive_failures counter: final counter and the renders in order. -/
def periodic_sync_run (c : Nat) : List Bool → Nat × List PRender
  | [] => (c, [])
  | ok :: rest =>
    let p := periodic_sync_step c ok
    let q := periodic_sync_run p.1 rest
    (q.1, p.2 ++ q.2)

/-- Number of CONNECTION ERROR renders in a render trace. -/
def errCount (evs : List PRender) : Nat :=
  evs.countP fun e => match e with
    | .connError => true
    | _ => false

/-! ### Camera and gate controller (rasbery.py) -/

/-- Commands SimpleParkingCamera issues to the servo PWM channel. -/
inductive GateEvent where
  | changeDuty (d : ℚ)
  | sleep (t : ℚ)
deriving DecidableEq

/-- SimpleParkingCamera.set_gate_angle, rasbery.py lines 55-61: when the pwm
handle exists, set duty cycle 2 + angle/18, wait 0.1s, zero the duty cycle;
otherwise do nothing. -/
def set_gate_angle (hasPwm : Bool) (angle : ℚ) : List GateEvent :=
  if hasPwm then [.changeDuty (2 + angle / 18), .sleep (1/10), .changeDuty 0]
  else []

/-- SimpleParkingCamera.operate_gate, rasbery.py lines 63-72: angle 90,
sleep 10 seconds, angle 0. -/
def operate_gate (hasPwm : Bool) : List GateEvent :=
  set_gate_angle hasPwm 90 ++ [.sleep 10] ++ set_gate_angle hasPwm 0

/-- The angles commanded by a gate trace, recovered from the nonzero duty
cycles (duty = 2 + angle/18, and duty 0 is the stop-signal, not an angle). -/
def commandedAngles (evs : List GateEvent) : List ℚ :=
  evs.filterMap fun e => match e with
    | .changeDuty d => if d = 0 then none else some ((d - 2) * 18)
    | _ => none

/-- Outcome of `requests.post` in send_image_to_server: a caught exception
(network error, unreadable file aside), or a response with its status and
the optional `entry_id` of the parsed body (`none` when the body cannot be
parsed or lacks the key, which raises before `os.remove`). -/
inductive UploadOutcome where
  | noResponse
  | response (status : Nat) (entry_id : Option Nat)
deriving DecidableEq

/-- Side effects of send_image_to_server: the os.remove of the evidence file
and the gate commands of operate_gate. -/
inductive CamEvent where
  | deleteFile
  | gateEv (e : GateEvent)
deriving DecidableEq

/-- SimpleParkingCamera.send_image_to_server, rasbery.py lines 89-124.
`fileOk` is whether opening/reading the image file succeeds. On HTTP 200
the code prints result['entry_id'] (KeyError → except-branch, nothing
deleted), then deletes the file, then runs operate_gate, then returns
True; every other path returns False with no side effects. -/
def send_image_to_server (hasPwm fileOk : Bool) (o : UploadOutcome) :
    Bool × List CamEvent :=
  if fileOk then
    match o with
    | .noResponse => (false, [])
    | .response status eid =>
      if status = 200 then
        match eid with
        | none => (false, [])
        | some _ => (true, .deleteFile :: (operate_gate hasPwm).map .gateEv)
      else (false, [])
  else (false, [])

/-- One run_camera cycle (rasbery.py lines 145-159): a capture that may fail
(capture_image returning None skips the upload), then the upload attempt. -/
structure CycleInput where
  captureOk : Bool
  fileOk : Bool
  upload : UploadOutcome

/-- Effects of one cycle: 1 if send_image_to_server returned True, and the
side-effect trace. -/
def camCycle (hasPwm : Bool) (i : CycleInput) : Nat × List CamEvent :=
  if i.captureOk then
    let r := send_image_to_server hasPwm i.fileOk i.upload
    (if r.1 then 1 else 0, r.2)
  else (0, [])

/-- run_camera over a sequence of cycles: number of successful uploads and
the concatenated side-effect trace. -/
def run_camera (hasPwm : Bool) : List CycleInput → Nat × List CamEvent
  | [] => (0, [])
  | i :: rest =>
    let p := camCycle hasPwm i
    let q := run_camera hasPwm rest
    (p.1 + q.1, p.2 ++ q.2)

/-- Gate-open events in a trace: the duty-cycle command for angle 90
(duty = 2 + 90/18 = 7). -/
def gateOpenCount (evs : List CamEvent) : Nat :=
  evs.countP fun e => match e with
    | .gateEv (.changeDuty d) => d == 7
    | _ => false

/-! ### Theorems -/

/-- Claim C6: for every valid occupancy state with
0 ≤ occupied_slots ≤ total_slots, available_slots equals
total_slots - occupied_slots and is nonnegative, and is_full holds exactly
when available_slots is zero. -/
theorem available_slots_spec (s : LcdState)
    (h0 : 0 ≤ s.occupied_slots) (h1 : s.occupied_slots ≤ s.total_slots) :
    available_slots s = s.total_slots - s.occupied_slots ∧
    0 ≤ available_slots s ∧
    (is_full s = true ↔ available_slots s = 0) := by
  refine ⟨rfl, ?_, ?_⟩
  · unfold available_slots
    omega
  · simp [is_full]

/-- Witness for available_slots_spec at the concrete state (5, 3). -/
theorem available_slots_spec_witness :
    available_slots ⟨5, 3⟩ = 5 - 3 ∧
    0 ≤ available_slots ⟨5, 3⟩ ∧
    (is_full ⟨5, 3⟩ = true ↔ available_slots ⟨5, 3⟩ = 0) :=
  available_slots_spec ⟨5, 3⟩ (by decide) (by decide)

/-- Claim C10: update_display shows the PARKING FULL view exactly when
available_slots ≤ 0 (including the negative case occupied > total, e.g.
state (5, 7)), and the SPACES LEFT view exactly when available_slots > 0. -/
theorem update_display_full_iff (s : LcdState) :
    (update_display s = .full ↔ available_slots s ≤ 0) ∧
    (update_display s = .spacesLeft (available_slots s) s.total_slots ↔
      0 < available_slots s) ∧
    update_display ⟨5, 7⟩ = .full := by
  refine ⟨?_, ?_, by decide⟩ <;>
    · unfold update_display
      split <;> simp <;> omega

/-- Claim C7: operate_gate with an initialized servo issues exactly the
duty-cycle command for 90 degrees (duty 7), the 10-second hold, and the
duty-cycle command for 0 degrees (duty 2); the commanded angle sequence is
[90, 0], ending closed. -/
theorem operate_gate_sequence :
    operate_gate true =
      [.changeDuty 7, .sleep (1/10), .changeDuty 0, .sleep 10,
       .changeDuty 2, .sleep (1/10), .changeDuty 0] ∧
    commandedAngles (operate_gate true) = [90, 0] ∧
    (commandedAngles (operate_gate true)).getLast? = some 0 := by
  have htr : operate_gate true =
      [.changeDuty 7, .sleep (1/10), .changeDuty 0, .sleep 10,
       .changeDuty 2, .sleep (1/10), .changeDuty 0] := by
    norm_num [operate_gate, set_gate_angle]
  have hang : commandedAngles (operate_gate true) = [90, 0] := by
    rw [htr]
    norm_num [commandedAngles, List.filterMap]
  exact ⟨htr, hang, by rw [hang]; rfl⟩

/-- Claim C9: a 200 response with the success flag true whose data object
has total_slots but no occupied_slots key mutates total_slots, keeps the
old occupied_slots, and reports the sync as failed. -/
theorem sync_missing_occupied (s : LcdState) (t : Int) :
    sync_with_django s (.response 200 (some ⟨true, some ⟨some t, none⟩⟩)) =
      ⟨⟨t, s.occupied_slots⟩, false, 0⟩ := rfl

/-- Claim C3 counterexample: from state (5, 0), a 200 response with
occupied_slots = 7 > total_slots = 5 is NOT rejected — the state after the
sync differs from the state before it. -/
theorem sync_invariant_violation_cex :
    (sync_with_django ⟨5, 0⟩ (okResponse 5 7)).state ≠ ⟨5, 0⟩ := by decide

/-- Claim C3 (amended): a fetch whose payload violates the occupancy
invariant (occupied_slots > total_slots) is applied unvalidated — the state
after the sync equals the fetched values and the sync reports success. -/
theorem sync_invariant_violation_applied (s : LcdState) (t oc : Int)
    (h : t < oc) :
    (sync_with_django s (okResponse t oc)).state = ⟨t, oc⟩ ∧
    (sync_with_django s (okResponse t oc)).ok = true :=
  ⟨rfl, rfl⟩

/-- Witness for sync_invariant_violation_applied at state (5, 0) and
fetched values total = 5, occupied = 7. -/
theorem sync_invariant_violation_applied_witness :
    (sync_with_django ⟨5, 0⟩ (okResponse 5 7)).state = ⟨5, 7⟩ ∧
    (sync_with_django ⟨5, 0⟩ (okResponse 5 7)).ok = true :=
  sync_invariant_violation_applied ⟨5, 0⟩ 5 7 (by decide)

/-- Sync cycles that fetch exactly the held values never render. -/
theorem syncRun_replicate_same (t oc : Int) (m : Nat) :
    syncRun ⟨t, oc⟩ (List.replicate m (okResponse t oc)) = (⟨t, oc⟩, 0) := by
  induction m with
  | zero => rfl
  | succ m ih =>
    have hstep : sync_with_django ⟨t, oc⟩ (okResponse t oc) =
        ⟨⟨t, oc⟩, true, 0⟩ := by
      simp [sync_with_django, okResponse]
    simp only [List.replicate, syncRun, hstep]
    simp [ih]

/-- Claim C5 counterexample: from state (5, 0), three identical successful
fetches of (5, 0) produce zero update_display renders, not exactly one. -/
theorem sync_identical_fetch_renders_cex :
    (syncRun ⟨5, 0⟩ (List.replicate 3 (okResponse 5 0))).2 = 0 ∧
    (syncRun ⟨5, 0⟩ (List.replicate 3 (okResponse 5 0))).2 ≠ 1 := by decide

/-- Claim C5 (amended): a successful fetch whose values equal the held
(total, occupied) pair skips the re-render; and across n ≥ 1 identical
successful fetches whose values differ from the initially held pair, the
display is re-rendered exactly once, by the first fetch. -/
theorem sync_skip_render_unchanged (s : LcdState) (t oc : Int) (n : Nat)
    (hch : ¬(s.total_slots = t ∧ s.occupied_slots = oc)) (hn : 1 ≤ n) :
    (sync_with_django s (okResponse s.total_slots s.occupied_slots)).renders
      = 0 ∧
    syncRun s (List.replicate n (okResponse t oc)) = (⟨t, oc⟩, 1) := by
  constructor
  · simp [sync_with_django, okResponse]
  · obtain ⟨m, rfl⟩ : ∃ m, n = m + 1 := ⟨n - 1, by omega⟩
    have hr : sync_with_django s (okResponse t oc) = ⟨⟨t, oc⟩, true, 1⟩ := by
      show (⟨⟨t, oc⟩, true,
        if s.occupied_slots ≠ oc ∨ s.total_slots ≠ t then 1 else 0⟩ :
          SyncResult) = ⟨⟨t, oc⟩, true, 1⟩
      rw [if_pos (by tauto)]
    simp only [List.replicate, syncRun, hr]
    simp [syncRun_replicate_same]

/-- Witness for sync_skip_render_unchanged at state (5, 0), fetched values
(5, 3), and two identical fetches. -/
theorem sync_skip_render_unchanged_witness :
    (sync_with_django ⟨5, 0⟩ (okResponse 5 0)).renders = 0 ∧
    syncRun ⟨5, 0⟩ (List.replicate 2 (okResponse 5 3)) = (⟨5, 3⟩, 1) :=
  sync_skip_render_unchanged ⟨5, 0⟩ 5 3 2 (by decide) (by decide)

/-- Running the loop over a concatenation: the counter threads through and
the render traces concatenate. -/
theorem periodic_sync_run_append (c : Nat) (t u : List Bool) :
    periodic_sync_run c (t ++ u) =
      ((periodic_sync_run (periodic_sync_run c t).1 u).1,
       (periodic_sync_run c t).2 ++
         (periodic_sync_run (periodic_sync_run c t).1 u).2) := by
  induction t generalizing c with
  | nil => simp [periodic_sync_run]
  | cons a t ih => simp [periodic_sync_run, ih]

/-- errCount distributes over trace concatenation. -/
theorem errCount_append (a b : List PRender) :
    errCount (a ++ b) = errCount a + errCount b :=
  List.countP_append _ _ _

/-- Claim C4: starting from a reset counter, one or two sync failures
render no CONNECTION ERROR, the third consecutive failure renders it
exactly once — and the trace of three failures is SYNCING, SYNCING,
SYNCING, CONNECTION ERROR, then the restoring update_display, so the error
is shown once, immediately before the fallback re-render; any success
resets the counter to 0, so three more consecutive failures are needed
afterwards. -/
theorem periodic_sync_error_policy (t : List Bool) :
    (periodic_sync_run 0 (t ++ [true])).1 = 0 ∧
    ((periodic_sync_run 0 t).1 = 0 →
      errCount (periodic_sync_run 0 (t ++ [false])).2 =
        errCount (periodic_sync_run 0 t).2 ∧
      errCount (periodic_sync_run 0 (t ++ [false, false])).2 =
        errCount (periodic_sync_run 0 t).2 ∧
      errCount (periodic_sync_run 0 (t ++ [false, false, false])).2 =
        errCount (periodic_sync_run 0 t).2 + 1) ∧
    (periodic_sync_run 0 [false, false, false]).2 =
      [.syncing, .syncing, .syncing, .connError, .restore] := by
  have e1 : errCount (periodic_sync_run 0 [false]).2 = 0 := by decide
  have e2 : errCount (periodic_sync_run 0 [false, false]).2 = 0 := by decide
  have e3 : errCount (periodic_sync_run 0 [false, false, false]).2 = 1 := by
    decide
  refine ⟨?_, fun h => ⟨?_, ?_, ?_⟩, by decide⟩
  · rw [periodic_sync_run_append]
    simp [periodic_sync_run, periodic_sync_step]
  · rw [periodic_sync_run_append, errCount_append, h, e1, Nat.add_zero]
  · rw [periodic_sync_run_append, errCount_append, h, e2, Nat.add_zero]
  · rw [periodic_sync_run_append, errCount_append, h, e3]

/-- Witness for periodic_sync_error_policy with the empty prefix: from a
fresh counter, exactly three consecutive failures add one CONNECTION ERROR
render. -/
theorem periodic_sync_error_policy_witness :
    errCount (periodic_sync_run 0 ([] ++ [false, false, false])).2 =
      errCount (periodic_sync_run 0 []).2 + 1 :=
  ((periodic_sync_error_policy []).2.1 rfl).2.2

/-- Claim C8: with the remote unreachable on the first cycle (connection
error or timeout), the initial sync leaves the fallback defaults
(DEFAULT_TOTAL_SLOTS = 5, occupied = 0) untouched and the initial
update_display renders the SPACES LEFT view with 5 of 5 available. -/
theorem startup_fallback_render (o : FetchOutcome)
    (h : o = .connectionError ∨ o = .timeout) :
    sync_with_django initState o = ⟨initState, false, 0⟩ ∧
    update_display initState = .spacesLeft 5 5 := by
  rcases h with rfl | rfl <;> exact ⟨rfl, by decide⟩

/-- Witness for startup_fallback_render at the connection-error outcome. -/
theorem startup_fallback_render_witness :
    sync_with_django initState .connectionError = ⟨initState, false, 0⟩ ∧
    update_display initState = .spacesLeft 5 5 :=
  startup_fallback_render .connectionError (Or.inl rfl)

/-- gateOpenCount distributes over trace concatenation. -/
theorem gateOpenCount_append (a b : List CamEvent) :
    gateOpenCount (a ++ b) = gateOpenCount a + gateOpenCount b :=
  List.countP_append _ _ _

/-- One upload attempt commands at most one gate opening, and only when it
returns True. -/
theorem gateOpenCount_send (hasPwm fileOk : Bool) (o : UploadOutcome) :
    gateOpenCount (send_image_to_server hasPwm fileOk o).2 ≤
      (if (send_image_to_server hasPwm fileOk o).1 then 1 else 0) := by
  cases fileOk
  · simp [send_image_to_server, gateOpenCount]
  · rcases o with _ | ⟨st, eid⟩
    · simp [send_image_to_server, gateOpenCount]
    · by_cases hst : st = 200
      · subst hst
        rcases eid with _ | e
        · simp [send_image_to_server, gateOpenCount]
        · cases hasPwm <;>
            norm_num [send_image_to_server, gateOpenCount, operate_gate,
              set_gate_angle, List.countP_cons, List.countP_nil, beq_iff_eq]
      · simp [send_image_to_server, hst, gateOpenCount]

/-- One camera cycle commands at most as many gate openings as it records
successful uploads. -/
theorem gateOpenCount_camCycle (hasPwm : Bool) (i : CycleInput) :
    gateOpenCount (camCycle hasPwm i).2 ≤ (camCycle hasPwm i).1 := by
  rcases i with ⟨cap, fok, o⟩
  cases cap
  · simp [camCycle, gateOpenCount]
  · simpa [camCycle] using gateOpenCount_send hasPwm fok o

/-- Claim C1: over any sequence of capture cycles, the number of gate-open
actuations never exceeds the number of successful evidence uploads. -/
theorem gate_open_le_successful_uploads (hasPwm : Bool)
    (inputs : List CycleInput) :
    gateOpenCount (run_camera hasPwm inputs).2 ≤
      (run_camera hasPwm inputs).1 := by
  induction inputs with
  | nil => simp [run_camera, gateOpenCount]
  | cons i rest ih =>
    simp only [run_camera]
    rw [gateOpenCount_append]
    exact Nat.add_le_add (gateOpenCount_camCycle hasPwm i) ih

/-- Claim C2: the evidence file is deleted exactly when
send_image_to_server reports success; on any failure the side-effect trace
is empty (file retained, no actuation); and success requires an HTTP 200
response carrying an entry_id. -/
theorem evidence_delete_iff_success (hasPwm fileOk : Bool)
    (o : UploadOutcome) :
    (CamEvent.deleteFile ∈ (send_image_to_server hasPwm fileOk o).2 ↔
      (send_image_to_server hasPwm fileOk o).1 = true) ∧
    ((send_image_to_server hasPwm fileOk o).1 = false →
      (send_image_to_server hasPwm fileOk o).2 = []) ∧
    ((send_image_to_server hasPwm fileOk o).1 = true →
      ∃ eid, o = .response 200 (some eid)) := by
  cases fileOk
  · simp [send_image_to_server]
  · rcases o with _ | ⟨st, eid⟩
    · simp [send_image_to_server]
    · by_cases hst : st = 200
      · subst hst
        rcases eid with _ | e
        · simp [send_image_to_server]
        · refine ⟨by simp [send_image_to_server], by simp [send_image_to_server],
            fun _ => ⟨e, rfl⟩⟩
      · simp [send_image_to_server, hst]

/-- Witness for evidence_delete_iff_success at a concrete failed upload
(HTTP 500, unparseable body): nothing is deleted and nothing actuates. -/
theorem evidence_delete_iff_success_witness :
    (CamEvent.deleteFile ∈
        (send_image_to_server true true (.response 500 none)).2 ↔
      (send_image_to_server true true (.response 500 none)).1 = true) ∧
    ((send_image_to_server true true (.response 500 none)).1 = false →
      (send_image_to_server true true (.response 500 none)).2 = []) ∧
    ((send_image_to_server true true (.response 500 none)).1 = true →
      ∃ eid, UploadOutcome.response 500 none = .response 200 (some eid)) :=
  evidence_delete_iff_success true true (.response 500 none)

end IPS
